import Mathlib

/-!
Verification development for the LegislationBuilder policy-reform pipeline.

This file gives a shallow embedding of the extraction / normalization /
rendering pipeline of the repository (src/policy_parser.py,
src/utils/policy_parser.py, src/models/policy_reform.py,
src/utils/text_generator.py) and proves the testable properties stated
about it.  Python machine floats are modelled as rationals; Python dicts
are modelled as association lists in insertion order; Python `None` is
modelled with `Option`; functions that raise are modelled with `Except`.
-/

/-! Python-style string primitives used by the source code. -/

/-- Whitespace characters recognized by Python's default `str.strip` and
by the regex class `\s` (ASCII range). -/
def wsChar (c : Char) : Bool :=
  c = ' ' || c = '\t' || c = '\n' || c = '\r' || c = '\x0b' || c = '\x0c'

/-- Python `str.strip()` with no argument: drop leading and trailing
whitespace. -/
def pyStrip (s : String) : String :=
  (((s.toList.dropWhile wsChar).reverse.dropWhile wsChar).reverse).asString

/-- Python `str.lower()` (ASCII letters; the paths handled by the source
are ASCII). -/
def pyLower (s : String) : String :=
  (s.toList.map Char.toLower).asString

/-- Python `str.upper()` (ASCII letters). -/
def pyUpper (s : String) : String :=
  (s.toList.map Char.toUpper).asString

/-- Python `str.replace(old, new)` for a single-character pattern, which
is how the source always calls it (`_` to space, `.` to `/`): a
per-character substitution. -/
def replaceCharStr (a b : Char) (s : String) : String :=
  (s.toList.map (fun c => if c = a then b else c)).asString

/-- Python `sep.join(parts)`. -/
def joinSep (sep : String) : List String → String
  | [] => ""
  | [x] => x
  | x :: rest => x ++ sep ++ joinSep sep rest

/-- Python `str.startswith` for a literal prefix. -/
def pyStartsWith (s pre : String) : Bool :=
  List.isPrefixOf pre.toList s.toList

/-- Python `str.endswith` for a literal suffix. -/
def pyEndsWith (s suf : String) : Bool :=
  List.isPrefixOf suf.toList.reverse s.toList.reverse

/-- Substring test over character lists: does `needle` occur contiguously
inside the list? -/
def listHasSub (needle : List Char) : List Char → Bool
  | [] => needle.isEmpty
  | c :: rest => List.isPrefixOf needle (c :: rest) || listHasSub needle rest

/-- Python `sub in hay` for strings. -/
def pyContains (hay sub : String) : Bool :=
  listHasSub sub.toList hay.toList

/-- Python `str.split(sep)` for a single-character separator: keeps empty
fields, always returns at least one field. -/
def splitChar (sep : Char) (s : String) : List String :=
  (s.toList.splitOn sep).map List.asString

/-- Worker for `pyTitle`: the boolean records whether the previous
character was alphabetic. -/
def pyTitleGo : Bool → List Char → List Char
  | _, [] => []
  | prevAlpha, c :: rest =>
    if c.isAlpha then
      (if prevAlpha then c.toLower else c.toUpper) :: pyTitleGo true rest
    else
      c :: pyTitleGo false rest

/-- Python `str.title()`: uppercase each letter that follows a non-letter,
lowercase the other letters. -/
def pyTitle (s : String) : String :=
  (pyTitleGo false s.toList).asString

/-- Value of a list of decimal digit characters, most significant first. -/
def digitsToNat (cs : List Char) : Nat :=
  cs.foldl (fun a c => a * 10 + (c.toNat - 48)) 0

/-- Parse a nonempty all-digit character list. -/
def parseDigits (cs : List Char) : Option Nat :=
  if cs ≠ [] ∧ cs.all Char.isDigit then some (digitsToNat cs) else none

/-- Python `int(str)`: strips whitespace, allows an optional sign, then
requires a nonempty digit string; returns `none` where Python raises
`ValueError`. -/
def pyInt (s : String) : Option Int :=
  match (pyStrip s).toList with
  | '-' :: rest => (parseDigits rest).map (fun n => -(n : Int))
  | '+' :: rest => (parseDigits rest).map (fun n => (n : Int))
  | cs => (parseDigits cs).map (fun n => (n : Int))

/-- Insert a comma after every group of three digits; the input and output
lists are least-significant-digit first. -/
def commaGroup3 : List Char → List Char
  | a :: b :: c :: d :: rest => a :: b :: c :: ',' :: commaGroup3 (d :: rest)
  | l => l

/-- Decimal rendering of a natural number with thousands separators, as
produced by Python's `,` format specifier. -/
def commaNat (n : Nat) : String :=
  ((commaGroup3 (Nat.toDigits 10 n).reverse).reverse).asString

/-- Nearest integer to `k * q`, ties to even: the rounding used by Python
float formatting, computed on the numerator and denominator so that it
evaluates by machine integer arithmetic. -/
def roundHalfEvenScaled (k : Int) (q : ℚ) : Int :=
  let num : Int := k * q.num
  let den : Int := (q.den : Int)
  let f : Int := Int.fdiv num den
  let rnum : Int := num - f * den
  if 2 * rnum < den then f
  else if den < 2 * rnum then f + 1
  else if f % 2 = 0 then f else f + 1

/-- Round a rational to the nearest integer, ties to even. -/
def roundHalfEven (q : ℚ) : Int :=
  roundHalfEvenScaled 1 q

/-- Python `f"{q:.1f}"` on the rational model of a float: fixed-point with
one decimal digit. -/
def fmtFixed1 (q : ℚ) : String :=
  let n := roundHalfEvenScaled 10 q
  let sign := if n < 0 ∨ (n = 0 ∧ q < 0) then "-" else ""
  let a := n.natAbs
  sign ++ (Nat.repr (a / 10)) ++ "." ++ (Nat.repr (a % 10))

/-- Python `f"${q:,.0f}"`: currency rendering, rounded to a whole number
with thousands separators. -/
def fmtCurrency0 (q : ℚ) : String :=
  let n := roundHalfEven q
  let sign := if n < 0 ∨ (n = 0 ∧ q < 0) then "-" else ""
  "$" ++ sign ++ commaNat n.natAbs

/-- Python `f"{n:,}"` on an integer. -/
def fmtCommaInt (n : Int) : String :=
  (if n < 0 then "-" else "") ++ commaNat n.natAbs

/-- Multiplication of a rational by an integer scalar, computed through
`mkRat` on the numerator (`ratScale100` below identifies scaling by 100
with real multiplication); used to model Python's `value * 100`. -/
def ratScale (k : Int) (q : ℚ) : ℚ :=
  mkRat (k * q.num) q.den

/-- Fractional decimal digits of a rational in `[0, 1)`, up to `fuel`
places, stopping when the expansion terminates. -/
def fracDigits : Nat → ℚ → List Char
  | 0, _ => []
  | Nat.succ fuel, q =>
    if q = 0 then []
    else
      let q10 := q * 10
      let d : Int := Rat.floor q10
      Char.ofNat (48 + d.toNat) :: fracDigits fuel (q10 - (d : ℚ))

/-- Python `f"{q:,}"` on the rational model of a float: thousands-grouped
integer part and the decimal expansion of the fractional part (floats
carry at most 17 significant decimal digits). -/
def fmtCommaFloat (q : ℚ) : String :=
  let sign := if q < 0 then "-" else ""
  let a : ℚ := if q < 0 then -q else q
  let ip : Nat := (Rat.floor a).natAbs
  let ds := fracDigits 17 (a - ((Rat.floor a : Int) : ℚ))
  sign ++ commaNat ip ++ "." ++ (if ds.isEmpty then "0" else ds.asString)

/-! Data model (src/models/policy_reform.py). -/

/-- Python scalar or nested dict value, as occurs in a reform dictionary.
Machine floats are modelled as rationals. -/
inductive PyObj where
  | int (n : Int)
  | float (q : ℚ)
  | str (s : String)
  | dict (entries : List (String × PyObj))

mutual

/-- Python `repr` of a `PyObj` (dict entries as `'k': v`); used only by
`str()` on non-scalar values. -/
def pyRepr : PyObj → String
  | PyObj.int n => fmtCommaInt n
  | PyObj.float q => fmtCommaFloat q
  | PyObj.str s => "'" ++ s ++ "'"
  | PyObj.dict es => "\x7b" ++ pyReprEntries es ++ "\x7d"

/-- Comma-separated rendering of dict entries for `pyRepr`. -/
def pyReprEntries : List (String × PyObj) → String
  | [] => ""
  | [e] => "'" ++ e.1 ++ "': " ++ pyRepr e.2
  | e :: rest => "'" ++ e.1 ++ "': " ++ pyRepr e.2 ++ ", " ++ pyReprEntries rest

end

/-- Python `str(value)` as applied by `get_formatted_value` to a value
that is not an int or float: a string renders as itself, anything else by
its repr. -/
def pyStrFallback : PyObj → String
  | PyObj.str s => s
  | v => pyRepr v

/-- A specific change to a policy parameter (class `PolicyChange`).  The
`date_range` field is the opaque raw key stored when the date-range key
did not split into two dot-separated parts; dated changes store `none`
(Python `None`). -/
structure PolicyChange where
  start_date : String
  end_date : String
  value : PyObj
  date_range : Option String

/-- Python truthiness of an `Optional[str]` field: `None` and the empty
string are falsy. -/
def pyTruthyStr : Option String → Bool
  | none => false
  | some s => s ≠ ""

/-- Method `PolicyChange.get_year`: the integer year parsed from the part
of `start_date` before the first dash, `none` on parse failure. -/
def PolicyChange.get_year (c : PolicyChange) : Option Int :=
  pyInt ((splitChar '-' c.start_date).headD "")

/-- Method `PolicyChange.get_formatted_dates`: an opaque (truthy)
`date_range` label is echoed verbatim; otherwise the phrase is built from
the years of `start_date` and `end_date`, with end year 2100 denoting an
open-ended change. -/
def PolicyChange.get_formatted_dates (c : PolicyChange) : String :=
  if pyTruthyStr c.date_range then c.date_range.getD ""
  else
    let start_year := (splitChar '-' c.start_date).headD ""
    let end_year := (splitChar '-' c.end_date).headD ""
    if end_year = "2100" then "starting in " ++ start_year
    else "from " ++ start_year ++ " to " ++ end_year

/-- A policy parameter being modified (class `PolicyParameter`). -/
structure PolicyParameter where
  path : String
  name : String
  agency : String
  type : String
  changes : List PolicyChange
  year : Option Int

/-- Value-formatting body of `get_formatted_value`: type-dependent
percentage, currency or plain-number rendering of the selected change's
raw value. -/
def format_value_for (p : PolicyParameter) : PyObj → String
  | PyObj.int n =>
    if p.type = "Tax Rate" ∨ pyContains (pyLower p.path) "rate" then
      (if (n : ℚ) < 1 then fmtFixed1 (ratScale 100 (n : ℚ)) else fmtFixed1 (n : ℚ)) ++ "%"
    else if pyContains (pyLower p.path) "amount" ∨ pyContains (pyLower p.path) "benefit" then
      fmtCurrency0 (n : ℚ)
    else fmtCommaInt n
  | PyObj.float q =>
    if p.type = "Tax Rate" ∨ pyContains (pyLower p.path) "rate" then
      (if q < 1 then fmtFixed1 (ratScale 100 q) else fmtFixed1 q) ++ "%"
    else if pyContains (pyLower p.path) "amount" ∨ pyContains (pyLower p.path) "benefit" then
      fmtCurrency0 q
    else fmtCommaFloat q
  | v => pyStrFallback v

/-- Method `PolicyParameter.get_formatted_value`.  The Python guard
`if not self.changes or change_index >= len(self.changes)` is exactly the
out-of-bounds test for the (non-negative) index, so it is modelled by the
`none` case of the safe lookup.  The method mutates nothing. -/
def PolicyParameter.get_formatted_value (p : PolicyParameter) (change_index : Nat) : String :=
  match p.changes[change_index]? with
  | none => "modified value"
  | some c => format_value_for p c.value

/-- A complete policy reform (class `PolicyReform`). -/
structure PolicyReform where
  parameters : List PolicyParameter
  country : String
  year : Int
  metrics : List String
  simulation_year : Option Int
  difference_variable : Option String

/-- Program-code marker table scanned by `get_program_name`, in source
order. -/
def programOfPart (part_lower : String) : Option String :=
  if part_lower = "ctc" then some "Child Tax Credit"
  else if part_lower = "eitc" then some "Earned Income Tax Credit"
  else if part_lower = "snap" then some "Supplemental Nutrition Assistance Program"
  else if part_lower = "tanf" then some "Temporary Assistance for Needy Families"
  else if part_lower = "ssi" then some "Supplemental Security Income"
  else if part_lower = "ui" then some "Unemployment Insurance"
  else if part_lower = "housing" ∨ part_lower = "section8" then some "Housing Assistance"
  else if part_lower = "medicaid" then some "Medicaid"
  else none

/-- First program marker found in a list of path parts. -/
def findProgramMarker : List String → Option String
  | [] => none
  | p :: rest =>
    match programOfPart (pyLower p) with
    | some nm => some nm
    | none => findProgramMarker rest

/-- Method `PolicyReform.get_program_name`. -/
def PolicyReform.get_program_name (r : PolicyReform) : String :=
  match r.parameters with
  | [] => "Tax and Transfer Program"
  | p0 :: _ =>
    match findProgramMarker (splitChar '.' p0.path) with
    | some nm => nm
    | none => if p0.type ≠ "" then p0.type ++ " Program" else "Government Program"

/-! Parameter path analyzer (src/utils/policy_parser.py, pure helpers). -/

/-- One step of the core-part loop of `_get_readable_name`: a pure
bracket-index segment (for example `[0]`) is skipped, a segment containing
a bracket is truncated before it, any other segment is kept. -/
def corePart (part : String) : Option String :=
  if pyStartsWith part "[" ∧ pyEndsWith part "]" then none
  else if pyContains part "[" then some ((splitChar '[' part).headD "")
  else some part

/-- Function `_get_readable_name`: last core path part, underscores
replaced by spaces, title-cased; `Unknown Parameter` when no core part
remains. -/
def get_readable_name (path_parts : List String) : String :=
  match (path_parts.filterMap corePart).getLast? with
  | some last => pyTitle (replaceCharStr '_' ' ' last)
  | none => "Unknown Parameter"

/-- Function `_extract_agency`: fixed agency table under a leading `gov`
segment, uppercased code for an unknown agency, `Federal Government`
otherwise. -/
def extract_agency (path_parts : List String) : String :=
  match path_parts with
  | "gov" :: a :: _ =>
    if a = "irs" then "Internal Revenue Service"
    else if a = "hhs" then "Health and Human Services"
    else if a = "usda" then "Department of Agriculture"
    else if a = "dol" then "Department of Labor"
    else if a = "ssi" then "Social Security Administration"
    else pyUpper a
  | _ => "Federal Government"

/-- Function `_infer_parameter_type`: first-match-wins substring
classification of the lowercased re-joined path. -/
def infer_parameter_type (path_parts : List String) : String :=
  let path_str := pyLower (joinSep "." path_parts)
  if pyContains path_str "credit" ∨ pyContains path_str "ctc" then "Tax Credit"
  else if pyContains path_str "deduction" then "Tax Deduction"
  else if pyContains path_str "amount" then "Benefit Amount"
  else if pyContains path_str "rate" then "Tax Rate"
  else if pyContains path_str "threshold" ∨ pyContains path_str "limit" then "Threshold"
  else if pyContains path_str "eligibility" then "Eligibility Criteria"
  else "Policy Parameter"

/-! Reform normalizer (src/utils/policy_parser.py, `_parse_parameter` and
`_process_reform_dict`).  The per-parameter dicts built by Python are
converted to `PolicyParameter` objects exactly as
`_dict_to_reform_object` (src/utils/text_generator.py) does it: an opaque
change gets empty `start_date` and `end_date`, a dated change gets
`date_range = none`, and a parameter dict without a `year` key gets
`year = none`. -/

/-- Loop body of `_parse_parameter` over one `(date_range, value)` entry
of the value dict: a key with at least two dot-separated parts produces a
dated change and, when the start year parses as an int, overwrites the
parameter's year; any other key produces an opaque change. -/
def parse_parameter_step (p : PolicyParameter) (e : String × PyObj) : PolicyParameter :=
  let dates := splitChar '.' e.1
  if 2 ≤ dates.length then
    let start_date := dates.headD ""
    let end_date := (dates[1]?).getD ""
    let p1 :=
      { p with changes := p.changes ++ [PolicyChange.mk start_date end_date e.2 none] }
    match pyInt ((splitChar '-' start_date).headD "") with
    | some y => { p1 with year := some y }
    | none => p1
  else
    { p with changes := p.changes ++ [PolicyChange.mk "" "" e.2 (some e.1)] }

/-- Function `_parse_parameter`: build the parameter skeleton from the
path via the path analyzer, then fold the value dict in insertion
order. -/
def parse_parameter (param_path : String) (value_dict : List (String × PyObj)) : PolicyParameter :=
  let path_parts := splitChar '.' param_path
  value_dict.foldl parse_parameter_step
    (PolicyParameter.mk param_path (get_readable_name path_parts)
      (extract_agency path_parts) (infer_parameter_type path_parts) [] none)

/-- Function `_process_reform_dict` composed with `_dict_to_reform_object`:
one `PolicyParameter` per mapping entry, in insertion order, with the
source defaults for country and (ambient) current year and no impact
information. -/
def process_reform_dict (currentYear : Int) (reform_dict : List (String × List (String × PyObj))) : PolicyReform :=
  PolicyReform.mk (reform_dict.map (fun e => parse_parameter e.1 e.2))
    "United States" currentYear [] none none

/-! Metadata enricher (src/policy_parser.py, `get_parameter_info`). -/

/-- Regex word character `\w` (ASCII range, as in the source paths). -/
def wordChar (c : Char) : Bool :=
  c.isAlphanum || c = '_'

/-- Python `re.sub` with pattern `\[\d+\]\.[\w]+$`: strip a trailing
bracket-indexed-field suffix such as `[0].amount` from a parameter
path. -/
def stripIndexSuffix (path : String) : String :=
  let r := path.toList.reverse
  let ws := r.takeWhile wordChar
  if ws.isEmpty then path
  else
    match r.drop ws.length with
    | '.' :: ']' :: r2 =>
      let ds := r2.takeWhile Char.isDigit
      if ds.isEmpty then path
      else
        match r2.drop ds.length with
        | '[' :: r3 => r3.reverse.asString
        | _ => path
    | _ => path

/-- A parameter metadata record as returned by the enricher.  The Python
record is the loaded YAML dict; the fields of interest (and the only ones
the stub ever carries) are `description` and `metadata.reference`, here
flattened to `reference` as a list of title/href pairs.  `values`,
`brackets` and `mtype` model the optional fields a real record may
carry. -/
structure ParamMetadata where
  description : String
  reference : List (String × String)
  values : Option PyObj
  brackets : Option PyObj
  mtype : Option String

/-- Key under which `get_parameter_info` addresses the external record
store: the normalized path with dots replaced by path separators and a
`.yaml` extension. -/
def yamlKey (parameter_path : String) : String :=
  replaceCharStr '.' '/' (stripIndexSuffix parameter_path) ++ ".yaml"

/-- Function `get_parameter_info`.  The external lookup (package resource
resolution, file open, YAML load) is modelled as a `store` function whose
error case covers a missing record, a malformed record and I/O failure;
the Python code catches every exception from that region and substitutes
the stub, so the embedding is total and never fails. -/
def get_parameter_info (store : String → Except String ParamMetadata) (parameter_path : String) : ParamMetadata :=
  match store (yamlKey parameter_path) with
  | Except.ok d => d
  | Except.error _ =>
    ParamMetadata.mk ("Parameter at " ++ parameter_path) [] none none none

/-! Text renderer (src/utils/text_generator.py). -/

/-- Function `_generate_summary`: one sentence about the first parameter's
first change, with a verb chosen by parameter type. -/
def generate_summary (r : PolicyReform) : String :=
  match r.parameters with
  | [] => "This reform modifies federal tax and transfer policy parameters."
  | p :: _ =>
    match p.changes with
    | [] => "This reform modifies one or more parameters of the federal tax and transfer system."
    | c :: _ =>
      let value := p.get_formatted_value 0
      let date_str := c.get_formatted_dates
      if p.type = "Tax Credit" then
        "This reform modifies the " ++ p.name ++ " to " ++ value ++ " " ++ date_str ++ "."
      else if p.type = "Tax Rate" then
        "This reform sets the " ++ p.name ++ " to " ++ value ++ " " ++ date_str ++ "."
      else if p.type = "Benefit Amount" then
        "This reform changes the " ++ p.name ++ " to " ++ value ++ " " ++ date_str ++ "."
      else if p.type = "Threshold" then
        "This reform adjusts the " ++ p.name ++ " to " ++ value ++ " " ++ date_str ++ "."
      else
        "This reform changes the " ++ p.name ++ " parameter to " ++ value ++ " " ++ date_str ++ "."

/-- One detail sentence of `_generate_parameter_details` for change number
`i` of parameter `p`. -/
def detail_sentence (p : PolicyParameter) (i : Nat) (c : PolicyChange) : String :=
  let value := p.get_formatted_value i
  let date_str := c.get_formatted_dates
  if p.type = "Tax Credit" then
    "The " ++ p.name ++ " is set to " ++ value ++ " " ++ date_str ++ "."
  else if p.type = "Tax Rate" then
    "The " ++ p.name ++ " is changed to " ++ value ++ " " ++ date_str ++ "."
  else if p.type = "Benefit Amount" then
    "The " ++ p.name ++ " is adjusted to " ++ value ++ " " ++ date_str ++ "."
  else if p.type = "Threshold" ∨ p.type = "Eligibility Criteria" then
    "The " ++ p.name ++ " is modified to " ++ value ++ " " ++ date_str ++ "."
  else
    "The " ++ p.name ++ " parameter is set to " ++ value ++ " " ++ date_str ++ "."

/-- Function `_generate_parameter_details`: parameters with no changes
contribute nothing; each remaining parameter contributes its
space-joined change sentences, one parameter per line under a
`Details:` header. -/
def generate_parameter_details (r : PolicyReform) : String :=
  if r.parameters.isEmpty then ""
  else
    "Details:\n" ++ joinSep "\n"
      (((r.parameters.filter (fun p => !p.changes.isEmpty)).map (fun p =>
        joinSep " "
          (p.changes.enum.map (fun ic => detail_sentence p ic.1 ic.2)))))

/-- Distinct truthy agencies of a reform's parameters, in first-occurrence
order: the membership of the Python set
`set(param.agency for param in reform.parameters if param.agency)`. -/
def distinct_agencies (r : PolicyReform) : List String :=
  ((r.parameters.map (fun p => p.agency)).filter (fun a => a ≠ "")).dedup

/-- Distinct truthy change years across all parameters, sorted ascending:
the Python set `effective_years` after `sorted(...)`. -/
def effective_years (r : PolicyReform) : List Int :=
  ((r.parameters.flatMap (fun p =>
      p.changes.filterMap (fun c =>
        match c.get_year with
        | some y => if y ≠ 0 then some y else none
        | none => none))).dedup).insertionSort (fun a b => a ≤ b)

/-- Function `_generate_implementation_details`.  Python iterates the
agency set in an unspecified order; the embedding takes that iteration
order as the explicit argument `agencyOrder` (a permutation of
`distinct_agencies`), which is the only non-determinism in the
renderer. -/
def generate_implementation_details (agencyOrder : List String) (r : PolicyReform) : String :=
  let parts1 : List String :=
    if distinct_agencies r ≠ [] then
      ["This reform would be implemented through " ++ joinSep ", " agencyOrder ++ "."]
    else []
  let ys := effective_years r
  let parts2 : List String :=
    if ys ≠ [] then
      let years_str := joinSep ", " (ys.map (fun y => Int.repr y))
      [if ys.length = 1 then "The reform would take effect in " ++ years_str ++ "."
       else "The reform would be implemented across multiple years: " ++ years_str ++ "."]
    else []
  let parts3 : List String :=
    match r.simulation_year with
    | some y => if y ≠ 0 then ["The policy impact was simulated for the year " ++ Int.repr y ++ "."] else []
    | none => []
  let parts4 : List String :=
    if r.metrics ≠ [] then
      ["The simulation analyzed impacts on " ++
        joinSep ", " (r.metrics.map (fun m => pyTitle (replaceCharStr '_' ' ' m))) ++ "."]
    else []
  let details_parts := parts1 ++ parts2 ++ parts3 ++ parts4
  if details_parts = [] then ""
  else "Implementation:\n" ++ joinSep "\n" details_parts

/-- Function `_generate_reform_description`: title, then the nonempty ones
of summary, details and implementation, joined with blank lines. -/
def generate_reform_description (agencyOrder : List String) (r : PolicyReform) : String :=
  let parts : List String :=
    ["Reform to the " ++ r.get_program_name]
    ++ (let s := generate_summary r; if s ≠ "" then [s] else [])
    ++ (let d := generate_parameter_details r; if d ≠ "" then [d] else [])
    ++ (let i := generate_implementation_details agencyOrder r; if i ≠ "" then [i] else [])
  joinSep "\n\n" parts

/-! Reform extractor (src/policy_parser.py,
`extract_reform_dict_from_code`).  The call-span regex
`Reform\.from_dict\((.*?)(?:,\s*country_id|\))` (DOTALL) is implemented
directly: find the first occurrence of the literal prefix, then extend
the lazy capture character by character until the remainder starts with
`,` + whitespace + `country_id` or with `)`.  If no terminator follows
the first literal occurrence then none follows any later occurrence
either, so the whole search fails exactly as the regex does. -/

/-- Does the remaining text start with one of the span terminators
`,\s*country_id` or `)`? -/
def termAt (cs : List Char) : Bool :=
  match cs with
  | ',' :: rest => List.isPrefixOf ("country_id".toList) (rest.dropWhile wsChar)
  | ')' :: _ => true
  | _ => false

/-- Lazy capture: shortest prefix of the input whose remainder starts
with a terminator.  `acc` holds the reversed capture so far. -/
def lazySpan (acc : List Char) : List Char → Option (List Char)
  | [] => none
  | c :: rest =>
    if termAt (c :: rest) then some acc.reverse
    else lazySpan (c :: acc) rest

/-- Suffix of the input after the first occurrence of the literal
`lit`. -/
def afterLit (lit : List Char) : List Char → Option (List Char)
  | [] => if lit.isEmpty then some [] else none
  | c :: rest =>
    if List.isPrefixOf lit (c :: rest) then some ((c :: rest).drop lit.length)
    else afterLit lit rest

/-- Group 1 of the call-span regex applied to the source text. -/
def findSpan (code : String) : Option String :=
  match afterLit ("Reform.from_dict(".toList) code.toList with
  | none => none
  | some rest => (lazySpan [] rest).map List.asString

/-! Strict tier: `ast.literal_eval` restricted to the literal sub-grammar
that reform dictionaries use — nested dicts with single- or double-quoted
string keys, string values without escapes, and signed decimal int/float
literals (no exponents, containers other than dicts, or named
constants). -/

/-- Parse a quoted string literal without escapes. -/
def parseStringLit : List Char → Option (String × List Char)
  | '"' :: rest =>
    let content := rest.takeWhile (fun c => c ≠ '"')
    (match rest.drop content.length with
     | '"' :: rest2 => some (content.asString, rest2)
     | _ => none)
  | '\'' :: rest =>
    let content := rest.takeWhile (fun c => c ≠ '\'')
    (match rest.drop content.length with
     | '\'' :: rest2 => some (content.asString, rest2)
     | _ => none)
  | _ => none

/-- Rational value of integer digits `ip` and fractional digits `fp`. -/
def ratOfParts (neg : Bool) (ip fp : List Char) : ℚ :=
  let num : Int := (digitsToNat ip * 10 ^ fp.length + digitsToNat fp : Nat)
  mkRat (if neg then -num else num) (10 ^ fp.length)

/-- Parse a signed decimal number literal; a literal containing a dot is a
float, otherwise an int. -/
def parseNumber (cs : List Char) : Option (PyObj × List Char) :=
  let signed : Bool × List Char :=
    match cs with
    | '-' :: r => (true, r)
    | '+' :: r => (false, r)
    | r => (false, r)
  let neg := signed.1
  let cs1 := signed.2
  let ip := cs1.takeWhile Char.isDigit
  let cs2 := cs1.drop ip.length
  match cs2 with
  | '.' :: r =>
    let fp := r.takeWhile Char.isDigit
    if ip.isEmpty ∧ fp.isEmpty then none
    else some (PyObj.float (ratOfParts neg ip fp), r.drop fp.length)
  | _ =>
    if ip.isEmpty then none
    else some (PyObj.int (if neg then -(digitsToNat ip : Int) else (digitsToNat ip : Int)), cs2)

mutual

/-- Parse one literal value (dict, string or number), consuming leading
whitespace. -/
def parseVal : Nat → List Char → Option (PyObj × List Char)
  | 0, _ => none
  | Nat.succ fuel, cs0 =>
    let cs := cs0.dropWhile wsChar
    match cs with
    | '{' :: rest =>
      (match rest.dropWhile wsChar with
       | '}' :: r2 => some (PyObj.dict [], r2)
       | rest2 =>
         match parsePairs fuel rest2 with
         | some (es, r2) => some (PyObj.dict es, r2)
         | none => none)
    | _ =>
      match parseStringLit cs with
      | some (s, r) => some (PyObj.str s, r)
      | none => parseNumber cs

/-- Parse the nonempty entry list of a dict literal, up to and including
the closing brace; a trailing comma before the brace is allowed. -/
def parsePairs : Nat → List Char → Option (List (String × PyObj) × List Char)
  | 0, _ => none
  | Nat.succ fuel, cs =>
    match parseStringLit (cs.dropWhile wsChar) with
    | none => none
    | some (k, r1) =>
      match r1.dropWhile wsChar with
      | ':' :: r2 =>
        (match parseVal fuel r2 with
         | none => none
         | some (v, r3) =>
           match r3.dropWhile wsChar with
           | ',' :: r4 =>
             (match r4.dropWhile wsChar with
              | '}' :: r5 => some ([(k, v)], r5)
              | r4w =>
                match parsePairs fuel r4w with
                | some (es, r5) => some ((k, v) :: es, r5)
                | none => none)
           | '}' :: r4 => some ([(k, v)], r4)
           | _ => none)
      | _ => none

end

/-- Function `ast.literal_eval` on the restricted literal grammar: the
whole string, up to surrounding whitespace, must parse as one value. -/
def literal_eval (s : String) : Option PyObj :=
  match parseVal (s.toList.length + 2) s.toList with
  | some (v, rest) => if (rest.dropWhile wsChar).isEmpty then some v else none
  | none => none

/-! Fallback tier: the pattern scan
`re.findall(r'"([^"]+)":\s*{([^{}]+)}\s*,?', ...)` followed per block by
`re.search(r'"([^"]+)":\s*(\d+)', ...)`. -/

/-- Try the block pattern at the current position: a non-empty
double-quoted key, a colon, optional whitespace, a brace-free non-empty
body in braces, then optional whitespace and an optional comma (both
consumed, as `findall` resumes after the full match). -/
def matchBlockAt : List Char → Option ((String × String) × List Char)
  | '"' :: rest =>
    let key := rest.takeWhile (fun c => c ≠ '"')
    if key.isEmpty then none
    else
      (match rest.drop key.length with
       | '"' :: ':' :: r2 =>
         (match r2.dropWhile wsChar with
          | '{' :: r4 =>
            let body := r4.takeWhile (fun c => c ≠ '{' ∧ c ≠ '}')
            if body.isEmpty then none
            else
              (match r4.drop body.length with
               | '}' :: r5 =>
                 let r6 := r5.dropWhile wsChar
                 let r7 := match r6 with
                   | ',' :: t => t
                   | _ => r6
                 some ((key.asString, body.asString), r7)
               | _ => none)
          | _ => none)
       | _ => none)
  | _ => none

/-- All non-overlapping block matches, scanning left to right; the fuel
dominates the number of scan steps (the input shrinks at every step). -/
def scanBlocks : Nat → List Char → List (String × String)
  | 0, _ => []
  | Nat.succ _, [] => []
  | Nat.succ fuel, c :: rest =>
    match matchBlockAt (c :: rest) with
    | some (p, r) => p :: scanBlocks fuel r
    | none => scanBlocks fuel rest

/-- Try the inner value pattern at the current position: a non-empty
double-quoted date-range key, a colon, optional whitespace, one or more
digits. -/
def matchValAt : List Char → Option (String × Nat)
  | '"' :: rest =>
    let d := rest.takeWhile (fun c => c ≠ '"')
    if d.isEmpty then none
    else
      (match rest.drop d.length with
       | '"' :: ':' :: r2 =>
         let ds := (r2.dropWhile wsChar).takeWhile Char.isDigit
         if ds.isEmpty then none else some (d.asString, digitsToNat ds)
       | _ => none)
  | _ => none

/-- Leftmost match of the inner value pattern (Python `re.search`). -/
def searchVal : List Char → Option (String × Nat)
  | [] => none
  | c :: rest =>
    match matchValAt (c :: rest) with
    | some p => some p
    | none => searchVal rest

/-- Python dict assignment on an association list: replace in place or
append. -/
def assocReplace (k : String) (v : PyObj) : List (String × PyObj) → List (String × PyObj)
  | [] => [(k, v)]
  | (k2, v2) :: rest =>
    if k2 = k then (k, v) :: rest else (k2, v2) :: assocReplace k v rest

/-- The fallback scan of the whole captured blob: each block whose body
contains a date-range/integer pair contributes a one-entry dict; blocks
without such a pair are skipped. -/
def fallback_scan (s : String) : List (String × PyObj) :=
  (scanBlocks (s.toList.length + 1) s.toList).foldl
    (fun acc kv =>
      match searchVal kv.2.toList with
      | some (dr, n) => assocReplace kv.1 (PyObj.dict [(dr, PyObj.int (n : Int))]) acc
      | none => acc) []

/-- Function `extract_reform_dict_from_code`: strict parse of the captured
span, then the pattern-scan fallback; a missing call span or an empty
fallback result is an error (Python `ValueError`). -/
def extract_reform_dict_from_code (code_string : String) : Except String PyObj :=
  match findSpan code_string with
  | none => Except.error "Could not find Reform.from_dict() in the provided code"
  | some g =>
    let reform_dict_str := pyStrip g
    match literal_eval reform_dict_str with
    | some v => Except.ok v
    | none =>
      let d := fallback_scan reform_dict_str
      if d.isEmpty then
        Except.error "Could not parse the reform dictionary from the code: Could not extract parameters from the reform dictionary"
      else Except.ok (PyObj.dict d)

/-! Theorems. -/

/-- Start-year contribution of one raw date-range key in
`_parse_parameter`: defined for keys with at least two dot-separated
parts whose first part's leading dash-field parses as an int. -/
def changeStartYear (date_range_key : String) : Option Int :=
  let dates := splitChar '.' date_range_key
  if 2 ≤ dates.length then pyInt ((splitChar '-' (dates.headD "")).headD "")
  else none

/-- Modelled from the amended claim wording: the parameter year is the
start-year of the LAST successfully parsed change; each later
successfully parsed change overwrites the year set by earlier ones. -/
def last_parsed_start_year (value_dict : List (String × PyObj)) : Option Int :=
  value_dict.foldl
    (fun acc e =>
      match changeStartYear e.1 with
      | some y => some y
      | none => acc) none

/-- One normalizer step changes the year exactly when the entry's key
contributes a parseable start-year, and then overwrites it. -/
theorem parse_parameter_step_year (p : PolicyParameter) (e : String × PyObj) :
    (parse_parameter_step p e).year =
      (match changeStartYear e.1 with
       | some y => some y
       | none => p.year) := by
  unfold parse_parameter_step changeStartYear
  by_cases h : 2 ≤ (splitChar '.' e.1).length
  · simp only [if_pos h]
    cases hy : pyInt ((splitChar '-' ((splitChar '.' e.1).headD "")).headD "") <;> simp [hy]
  · simp [if_neg h]

/-- The normalizer fold computes the year as a left-to-right
last-successful-parse fold over the value dict. -/
theorem parse_parameter_fold_year (vd : List (String × PyObj)) :
    ∀ p : PolicyParameter,
      (vd.foldl parse_parameter_step p).year =
        vd.foldl
          (fun acc e =>
            match changeStartYear e.1 with
            | some y => some y
            | none => acc) p.year := by
  induction vd with
  | nil => intro p; rfl
  | cons e tl ih =>
    intro p
    rw [List.foldl_cons, List.foldl_cons, ih, parse_parameter_step_year]

/-- C1 counterexample: in the Normalizer, with two date-range keys whose
start years both parse (2025 then 2030), the resulting parameter year is
2030 — the start-year of the LAST successfully parsed change — not the
first change's 2025 that the claim predicts; the later change did
overwrite the already-set year. -/
theorem c1_counterexample :
    (parse_parameter "gov.irs.credits.ctc.amount.base[0].amount"
        [("2025-01-01.2100-12-31", PyObj.int 1000),
         ("2030-01-01.2100-12-31", PyObj.int 2000)]).year = some 2030
    ∧ some (2030 : Int) ≠ some (2025 : Int) :=
  ⟨by decide, by decide⟩

/-- C1 (amended): for every raw reform mapping entry, the resulting
PolicyParameter's year is the start-year of the last successfully parsed
change, with each later successfully parsed change overwriting the
already-set year; keys that fail to split or parse contribute nothing. -/
theorem c1_year_last_parse_wins (param_path : String) (value_dict : List (String × PyObj)) :
    (parse_parameter param_path value_dict).year = last_parsed_start_year value_dict := by
  unfold parse_parameter last_parsed_start_year
  rw [parse_parameter_fold_year]

/-- Parameter identity is fixed by the skeleton: one normalizer step
never changes the path. -/
theorem parse_parameter_step_path (p : PolicyParameter) (e : String × PyObj) :
    (parse_parameter_step p e).path = p.path := by
  unfold parse_parameter_step
  by_cases h : 2 ≤ (splitChar '.' e.1).length
  · simp only [if_pos h]
    cases hy : pyInt ((splitChar '-' ((splitChar '.' e.1).headD "")).headD "") <;> simp [hy]
  · simp [if_neg h]

/-- The normalizer fold never changes the path. -/
theorem parse_parameter_fold_path (vd : List (String × PyObj)) :
    ∀ p : PolicyParameter, (vd.foldl parse_parameter_step p).path = p.path := by
  induction vd with
  | nil => intro p; rfl
  | cons e tl ih =>
    intro p
    rw [List.foldl_cons, ih, parse_parameter_step_path]

/-- The parameter built for a mapping entry carries that entry's path. -/
theorem parse_parameter_path (k : String) (vd : List (String × PyObj)) :
    (parse_parameter k vd).path = k := by
  unfold parse_parameter
  rw [parse_parameter_fold_path]

/-- C8: for every raw reform mapping with N parameter entries, the
Normalizer produces exactly N PolicyParameter entries, in the same order
as the entries appear in the mapping (witnessed by the parameter paths
matching the mapping keys position by position). -/
theorem c8_count_and_order (y : Int) (m : List (String × List (String × PyObj))) :
    (process_reform_dict y m).parameters.length = m.length
    ∧ (process_reform_dict y m).parameters.map (fun p => p.path) = m.map (fun e => e.1) := by
  constructor
  · simp [process_reform_dict]
  · unfold process_reform_dict
    simp only [List.map_map]
    exact List.map_congr_left (fun e _ => parse_parameter_path e.1 e.2)

/-- Scaling by 100 through `mkRat` is multiplication by 100: the bridge
between the computational form of the percentage rule and its
specification as `v * 100`. -/
theorem ratScale100 (q : ℚ) : ratScale 100 q = q * 100 := by
  unfold ratScale
  rw [Rat.mkRat_eq_div, Int.cast_mul, mul_comm ((100 : Int) : ℚ), mul_div_right_comm,
    Rat.num_div_den]
  norm_num

/-- Numeric view of a value, mirroring `isinstance(value, (int, float))`
followed by Python's implicit int-to-float arithmetic: ints and floats
yield their rational value, other values none. -/
def numericVal : PyObj → Option ℚ
  | PyObj.int n => some (n : ℚ)
  | PyObj.float q => some q
  | _ => none

/-- C2: for every PolicyParameter typed `Tax Rate` or whose path contains
`rate`, and whose selected change holds a numeric raw value v, the
formatted value is the percentage string showing v * 100 to one decimal
place when v < 1 and v itself to one decimal place when v >= 1 — the
asymmetric rule, preserved exactly. -/
theorem c2_rate_percent_format (p : PolicyParameter) (i : Nat) (c : PolicyChange) (v : ℚ)
    (hty : p.type = "Tax Rate" ∨ pyContains (pyLower p.path) "rate" = true)
    (hc : p.changes[i]? = some c)
    (hv : numericVal c.value = some v) :
    p.get_formatted_value i = (if v < 1 then fmtFixed1 (v * 100) else fmtFixed1 v) ++ "%" := by
  have hsome : p.get_formatted_value i = format_value_for p c.value := by
    unfold PolicyParameter.get_formatted_value
    rw [hc]
  rw [hsome]
  cases hval : c.value with
  | int n =>
    have hvn : (n : ℚ) = v := by
      rw [hval] at hv
      simpa [numericVal] using hv
    simp only [format_value_for]
    rw [if_pos hty, hvn, ratScale100]
  | float q =>
    have hvq : q = v := by
      rw [hval] at hv
      simpa [numericVal] using hv
    simp only [format_value_for]
    rw [if_pos hty, hvq, ratScale100]
  | str s =>
    rw [hval] at hv
    simp [numericVal] at hv
  | dict es =>
    rw [hval] at hv
    simp [numericVal] at hv

/-- Tax-Rate parameter of the C2 witness carrying the raw float value
0.07. -/
def c2_param_float : PolicyParameter :=
  PolicyParameter.mk "gov.irs.income.rate" "Rate" "Internal Revenue Service" "Tax Rate"
    [PolicyChange.mk "2025-01-01" "2100-12-31" (PyObj.float (mkRat 7 100)) none] none

/-- Tax-Rate parameter of the C2 witness carrying the raw int value 7. -/
def c2_param_int : PolicyParameter :=
  PolicyParameter.mk "gov.irs.income.rate" "Rate" "Internal Revenue Service" "Tax Rate"
    [PolicyChange.mk "2025-01-01" "2100-12-31" (PyObj.int 7) none] none

/-- C2 witness: a Tax-Rate parameter with raw value 0.07 formats as
`7.0%`, and one with raw value 7 formats as `7.0%`. -/
theorem c2_witness :
    c2_param_float.get_formatted_value 0 = "7.0%"
    ∧ c2_param_int.get_formatted_value 0 = "7.0%" := by
  constructor
  · have h := c2_rate_percent_format c2_param_float 0
      (PolicyChange.mk "2025-01-01" "2100-12-31" (PyObj.float (mkRat 7 100)) none)
      (mkRat 7 100) (Or.inl rfl) rfl rfl
    rw [h, if_pos (by decide), ← ratScale100]
    decide
  · have h := c2_rate_percent_format c2_param_int 0
      (PolicyChange.mk "2025-01-01" "2100-12-31" (PyObj.int 7) none)
      ((7 : Int) : ℚ) (Or.inl rfl) rfl rfl
    rw [h, if_neg (by decide)]
    decide

/-- The raw reform mapping of the end-to-end property C5. -/
def c5_reform_input : List (String × List (String × PyObj)) :=
  [("gov.irs.credits.ctc.amount.base[0].amount",
    [("2025-01-01.2100-12-31", PyObj.int 2500)])]

/-- C5: normalizing the end-to-end input yields exactly one
PolicyParameter, of type `Tax Credit`, with exactly one change, and the
rendered summary sentence contains the text
`modifies the Amount to $2,500 starting in 2025.` -/
theorem c5_end_to_end :
    ((process_reform_dict 2025 c5_reform_input).parameters.map
        (fun p => (p.type, p.changes.length)) = [("Tax Credit", 1)])
    ∧ ∃ pre post,
        generate_summary (process_reform_dict 2025 c5_reform_input)
          = pre ++ "modifies the Amount to $2,500 starting in 2025." ++ post :=
  ⟨by decide, "This reform ", "", by decide⟩

/-- C6: a PolicyChange stored with dated start and end fields and no
opaque date_range label renders `starting in {start year}` when the end
year is 2100 and `from {start year} to {end year}` otherwise, where each
year is the field's text before the first dash. -/
theorem c6_date_phrase (c : PolicyChange) (h : c.date_range = none) :
    c.get_formatted_dates =
      (if (splitChar '-' c.end_date).headD "" = "2100"
       then "starting in " ++ (splitChar '-' c.start_date).headD ""
       else "from " ++ ((splitChar '-' c.start_date).headD "") ++ " to "
            ++ ((splitChar '-' c.end_date).headD "")) := by
  unfold PolicyChange.get_formatted_dates
  rw [h]
  rfl

/-- C6 witness: the change stored for the key `2025-01-01.2100-12-31`
renders `starting in 2025`, and the one for `2025-01-01.2030-12-31`
renders `from 2025 to 2030`. -/
theorem c6_witness :
    (PolicyChange.mk "2025-01-01" "2100-12-31" (PyObj.int 2500) none).get_formatted_dates
      = "starting in 2025"
    ∧ (PolicyChange.mk "2025-01-01" "2030-12-31" (PyObj.int 2500) none).get_formatted_dates
      = "from 2025 to 2030" := by
  constructor
  · exact (c6_date_phrase _ rfl).trans (by decide)
  · exact (c6_date_phrase _ rfl).trans (by decide)

/-- C7: for the path `gov.irs.credits.ctc.amount.base[0].amount` the Path
Analyzer returns readable name `Amount`, agency
`Internal Revenue Service`, and — because the `credit`/`ctc` check comes
before the `amount` check in the first-match-wins chain — inferred type
`Tax Credit`. -/
theorem c7_path_analyzer :
    get_readable_name (splitChar '.' "gov.irs.credits.ctc.amount.base[0].amount") = "Amount"
    ∧ extract_agency (splitChar '.' "gov.irs.credits.ctc.amount.base[0].amount")
        = "Internal Revenue Service"
    ∧ infer_parameter_type (splitChar '.' "gov.irs.credits.ctc.amount.base[0].amount")
        = "Tax Credit" :=
  ⟨by decide, by decide, by decide⟩

/-- C10: for every PolicyParameter and index, if there are no changes or
the index is at least the number of changes, get_formatted_value returns
the fixed string `modified value` instead of failing (the embedding is a
total pure function, so the parameter is left unchanged). -/
theorem c10_out_of_range (p : PolicyParameter) (i : Nat)
    (h : p.changes = [] ∨ p.changes.length ≤ i) :
    p.get_formatted_value i = "modified value" := by
  have hnone : p.changes[i]? = none := by
    rcases h with h | h
    · rw [h]
      simp
    · exact List.getElem?_eq_none h
  unfold PolicyParameter.get_formatted_value
  rw [hnone]

/-- C10 witness: a parameter with zero changes formats index 0 as
`modified value`. -/
theorem c10_witness :
    (PolicyParameter.mk "gov.irs.credits.ctc.amount" "Amount" "Internal Revenue Service"
      "Tax Credit" [] none).get_formatted_value 0 = "modified value" :=
  c10_out_of_range _ 0 (Or.inl rfl)

/-- C9: for every parameter path and every external store whose lookup
fails, the Metadata Enricher returns the stub record whose description is
exactly `Parameter at {original path}` with an empty reference list and
no values, brackets or type fields; the embedding is total, so no
exception escapes. -/
theorem c9_stub_on_failure (store : String → Except String ParamMetadata) (path e : String)
    (h : store (yamlKey path) = Except.error e) :
    get_parameter_info store path =
      ParamMetadata.mk ("Parameter at " ++ path) [] none none none := by
  unfold get_parameter_info
  rw [h]

/-- C9 witness: looking up a nonexistent record yields the stub for the
original bracket-indexed path. -/
theorem c9_witness :
    get_parameter_info (fun _ => Except.error "not found")
        "gov.irs.credits.ctc.amount.base[0].amount"
      = ParamMetadata.mk "Parameter at gov.irs.credits.ctc.amount.base[0].amount" [] none
          none none :=
  c9_stub_on_failure (fun _ => Except.error "not found")
    "gov.irs.credits.ctc.amount.base[0].amount" "not found" rfl

/-- C3: the Reform Extractor fails (with a diagnostic error, Python
`ValueError`, the spec's ExtractionError) in exactly two situations — no
recognizable factory-call span, or strict parse failed and the fallback
scan of the whole captured blob produced zero keys — and in every other
case it returns the whole recovered mapping: either the strict parse
result or the complete fallback dictionary, never a per-parameter partial
mix of the two tiers. -/
theorem c3_extractor_failure_dichotomy (s : String) :
    ((∃ e, extract_reform_dict_from_code s = Except.error e) ↔
      (findSpan s = none ∨
        ∃ g, findSpan s = some g ∧ literal_eval (pyStrip g) = none
          ∧ fallback_scan (pyStrip g) = []))
    ∧ ∀ d, extract_reform_dict_from_code s = Except.ok d →
        ∃ g, findSpan s = some g ∧
          (literal_eval (pyStrip g) = some d ∨
            (literal_eval (pyStrip g) = none
              ∧ d = PyObj.dict (fallback_scan (pyStrip g)))) := by
  cases hspan : findSpan s with
  | none =>
    constructor
    · constructor
      · intro _
        exact Or.inl rfl
      · intro _
        exact ⟨"Could not find Reform.from_dict() in the provided code",
          by simp [extract_reform_dict_from_code, hspan]⟩
    · intro d hd
      simp [extract_reform_dict_from_code, hspan] at hd
  | some g =>
    cases hlit : literal_eval (pyStrip g) with
    | some v =>
      have hex : extract_reform_dict_from_code s = Except.ok v := by
        simp [extract_reform_dict_from_code, hspan, hlit]
      constructor
      · constructor
        · rintro ⟨e, he⟩
          rw [hex] at he
          exact absurd he (by simp)
        · rintro (h | ⟨g2, hg2, hl2, _⟩)
          · exact absurd h (by simp)
          · injection hg2 with hgg
            subst hgg
            rw [hlit] at hl2
            exact absurd hl2 (by simp)
      · intro d hd
        rw [hex] at hd
        injection hd with hvd
        exact ⟨g, rfl, Or.inl (by rw [hlit, hvd])⟩
    | none =>
      cases hfb : fallback_scan (pyStrip g) with
      | nil =>
        have hex : ∃ e, extract_reform_dict_from_code s = Except.error e := by
          refine ⟨"Could not parse the reform dictionary from the code: Could not extract parameters from the reform dictionary", ?_⟩
          simp [extract_reform_dict_from_code, hspan, hlit, hfb]
        constructor
        · constructor
          · intro _
            exact Or.inr ⟨g, rfl, hlit, hfb⟩
          · intro _
            exact hex
        · intro d hd
          rcases hex with ⟨e, he⟩
          rw [he] at hd
          exact absurd hd (by simp)
      | cons kv rest =>
        have hex : extract_reform_dict_from_code s
            = Except.ok (PyObj.dict (fallback_scan (pyStrip g))) := by
          simp [extract_reform_dict_from_code, hspan, hlit, hfb]
        constructor
        · constructor
          · rintro ⟨e, he⟩
            rw [hex] at he
            exact absurd he (by simp)
          · rintro (h | ⟨g2, hg2, hl2, hf2⟩)
            · exact absurd h (by simp)
            · injection hg2 with hgg
              subst hgg
              rw [hfb] at hf2
              exact absurd hf2 (by simp)
        · intro d hd
          rw [hex] at hd
          injection hd with hvd
          exact ⟨g, rfl, Or.inr ⟨hlit, hvd.symm⟩⟩

/-- C3 witness: source text without any factory-call span makes the
extractor fail. -/
theorem c3_witness :
    ∃ e, extract_reform_dict_from_code "simulation = Simulation()" = Except.error e :=
  (c3_extractor_failure_dichotomy "simulation = Simulation()").1.mpr (Or.inl (by decide))

/-- Reform with two distinct agencies used to exhibit the Text Renderer's
dependence on the agency set's iteration order. -/
def c4_two_agency_reform : PolicyReform :=
  PolicyReform.mk
    [PolicyParameter.mk "gov.irs.x" "X" "Internal Revenue Service" "Policy Parameter" [] none,
     PolicyParameter.mk "gov.dol.y" "Y" "Department of Labor" "Policy Parameter" [] none]
    "United States" 2025 [] none none

set_option maxRecDepth 4096 in
/-- C4 counterexample: both orders of the two distinct agencies are valid
iteration orders of the Python set (permutations of the distinct-agency
list), yet the two evaluations of the renderer produce different
description strings — the Implementation part lists the agencies in
different orders.  So render is not deterministic across runs. -/
theorem c4_counterexample :
    (["Internal Revenue Service", "Department of Labor"].Perm
        (distinct_agencies c4_two_agency_reform))
    ∧ (["Department of Labor", "Internal Revenue Service"].Perm
        (distinct_agencies c4_two_agency_reform))
    ∧ generate_reform_description
        ["Internal Revenue Service", "Department of Labor"] c4_two_agency_reform
      ≠ generate_reform_description
          ["Department of Labor", "Internal Revenue Service"] c4_two_agency_reform :=
  ⟨by decide, by decide, by decide⟩

/-- C4 (amended): the Text Renderer is deterministic up to the iteration
order of the agency set: for every PolicyReform whose parameters involve
at most one distinct (non-empty) agency, any two evaluations — under any
two valid set-iteration orders — produce the identical description
string; with two or more distinct agencies only the agency-list order in
the Implementation part may differ between runs. -/
theorem c4_deterministic_single_agency (r : PolicyReform) (o1 o2 : List String)
    (h1 : o1.Perm (distinct_agencies r)) (h2 : o2.Perm (distinct_agencies r))
    (hle : (distinct_agencies r).length ≤ 1) :
    generate_reform_description o1 r = generate_reform_description o2 r := by
  have ho : o1 = o2 := by
    match hda : distinct_agencies r with
    | [] =>
      rw [hda] at h1 h2
      rw [List.perm_nil.mp h1, List.perm_nil.mp h2]
    | [a] =>
      rw [hda] at h1 h2
      rw [List.perm_singleton.mp h1, List.perm_singleton.mp h2]
    | a :: b :: t =>
      rw [hda] at hle
      simp at hle
  rw [ho]

/-- Reform with a single agency for the C4 witness. -/
def c4_one_agency_reform : PolicyReform :=
  PolicyReform.mk
    [PolicyParameter.mk "gov.irs.x" "X" "Internal Revenue Service" "Policy Parameter" [] none]
    "United States" 2025 [] none none

/-- C4 witness: with one distinct agency, the two (necessarily equal)
valid iteration orders render identically. -/
theorem c4_witness :
    generate_reform_description ["Internal Revenue Service"] c4_one_agency_reform
      = generate_reform_description ["Internal Revenue Service"] c4_one_agency_reform :=
  c4_deterministic_single_agency c4_one_agency_reform
    ["Internal Revenue Service"] ["Internal Revenue Service"]
    (by decide) (by decide) (by decide)
